import Mathlib

/-!
Verification of the data synchronization and filtering subsystem of the
vocabulary trainer in `src/notion.py`, as a shallow embedding in Lean 4.

Conventions of the embedding:
* JSON values (Notion property objects) are modelled by the inductive `JVal`.
* Python code that can raise is modelled in `Except String α`; the `String`
  names the Python exception class raised.
* Timestamps (the やった日 column, `datetime.now`) are modelled as minutes
  since the epoch in UTC (`Nat`); a value `pd.to_datetime` coerces to `NaT`
  (absent or unparseable string) is `Option.none`.
* pandas DataFrames of word records are modelled as `List Rec`, one `Rec`
  per row, in row order.
-/

/-- A JSON value, as produced by `response.json()` in the source. -/
inductive JVal where
  | null
  | bool (b : Bool)
  | num (n : Int)
  | str (s : String)
  | arr (xs : List JVal)
  | obj (fields : List (String × JVal))

/-- Python truthiness of a JSON value (`if not prop`, `and prop[k]`). -/
def JVal.truthy : JVal → Bool
  | .null => false
  | .bool b => b
  | .num n => n != 0
  | .str s => s != ""
  | .arr xs => !xs.isEmpty
  | .obj fs => !fs.isEmpty

/-- Python `v == "k"` where `v` came out of a JSON object: equality with a
string literal is `True` only when `v` is that string. -/
def JVal.isStr : JVal → String → Bool
  | .str t, s => t == s
  | _, _ => false

/-- First binding of `key` in an association list (Python dict keys are
unique, so first-match lookup models dict indexing). -/
def lookupJ : List (String × JVal) → String → Option JVal
  | [], _ => none
  | (k, v) :: rest, key => if k == key then some v else lookupJ rest key

/-- Python `d.get(key, default)` on a dict. -/
def pyDictGet (fs : List (String × JVal)) (key : String) (dflt : JVal) : JVal :=
  (lookupJ fs key).getD dflt

/-- Python `v.get(key, default)`: raises `AttributeError` unless `v` is a
dict. -/
def pyGet (v : JVal) (key : String) (dflt : JVal) : Except String JVal :=
  match v with
  | .obj fs => .ok (pyDictGet fs key dflt)
  | _ => .error "AttributeError"

/-- Python `v[key]` on a dict: raises `KeyError` when the key is absent and
`TypeError` when `v` is not a dict. -/
def pySubscript (v : JVal) (key : String) : Except String JVal :=
  match v with
  | .obj fs =>
      match lookupJ fs key with
      | some x => .ok x
      | none => .error "KeyError"
  | _ => .error "TypeError"

/-- Python `v[0]`. -/
def pyIndex0 (v : JVal) : Except String JVal :=
  match v with
  | .arr (x :: _) => .ok x
  | .arr [] => .error "IndexError"
  | .str s =>
      match s.toList with
      | c :: _ => .ok (.str (String.mk [c]))
      | [] => .error "IndexError"
  | _ => .error "TypeError"

/-- Python `", ".join([item.get('name', '') for item in v])` over a
`multi_select` payload. Iterating a truthy dict or string yields elements
without a `.get` attribute; iterating a non-iterable raises `TypeError`. -/
def joinNames (v : JVal) : Except String JVal :=
  match v with
  | .arr items => do
      let names ← items.mapM (fun it => pyGet it "name" (.str ""))
      let strs ← names.mapM (fun x =>
        match x with
        | .str s => Except.ok s
        | _ => Except.error "TypeError")
      .ok (.str (String.intercalate ", " strs))
  | .obj _ => .error "AttributeError"
  | .str _ => .error "AttributeError"
  | _ => .error "TypeError"

/-- Embedding of `get_text_from_property` (src/notion.py lines 12-29).
The source is a chain of independent `if` statements; because the type tag
can match at most one of the five kinds, the chain is written here as
`if / else if`, which is semantically identical. -/
def get_text_from_property (prop : JVal) : Except String JVal :=
  if prop.truthy = false then .ok (.str "") else do
    let t ← pyGet prop "type" JVal.null
    if t.isStr "rich_text" then do
      let p ← pySubscript prop "rich_text"
      if p.truthy then do
        let x ← pyIndex0 p
        pyGet x "plain_text" (.str "")
      else .ok (.str "")
    else if t.isStr "title" then do
      let p ← pySubscript prop "title"
      if p.truthy then do
        let x ← pyIndex0 p
        pyGet x "plain_text" (.str "")
      else .ok (.str "")
    else if t.isStr "date" then do
      let p ← pySubscript prop "date"
      if p.truthy then pyGet p "start" (.str "") else .ok (.str "")
    else if t.isStr "select" then do
      let p ← pySubscript prop "select"
      if p.truthy then pyGet p "name" (.str "") else .ok (.str "")
    else if t.isStr "multi_select" then do
      let p ← pySubscript prop "multi_select"
      if p.truthy then joinNames p else .ok (.str "")
    else .ok (.str "")

/-- Embedding of `get_number_from_property` (src/notion.py lines 31-32):
`prop.get('number', 0) if prop else 0`. -/
def get_number_from_property (prop : JVal) : Except String JVal :=
  if prop.truthy then pyGet prop "number" (.num 0) else .ok (.num 0)

/-- Embedding of `get_status_from_property` (src/notion.py lines 34-35):
`prop.get('status', {}).get('name', '') if prop else ''`. -/
def get_status_from_property (prop : JVal) : Except String JVal :=
  if prop.truthy then do
    let s ← pyGet prop "status" (.obj [])
    pyGet s "name" (.str "")
  else .ok (.str "")

/-- The five type tags handled by `get_text_from_property`; for each, the
payload lives under a key equal to the tag itself. -/
def textKinds : List String := ["rich_text", "title", "date", "select", "multi_select"]

example : get_status_from_property (JVal.obj [("status", JVal.null)])
    = Except.error "AttributeError" := rfl

example : get_text_from_property (JVal.obj [("type", JVal.str "rich_text")])
    = Except.error "KeyError" := rfl

example : get_number_from_property (JVal.obj [("type", JVal.str "number"), ("number", JVal.null)])
    = Except.ok JVal.null := rfl

example : get_text_from_property (JVal.obj [("type", JVal.str "multi_select"),
    ("multi_select", JVal.arr [JVal.obj [("name", JVal.str "a")], JVal.obj [("name", JVal.str "b")]])])
    = Except.ok (JVal.str "a, b") := rfl

/-- One row of the word DataFrame. Field names romanize the source's
column names: `seigo` is 正誤 (outcome status), `mistake_count` is the
間違えた回数 number (none models NaN/None), `yatta` is やった日 (the
last-attempt timestamp, minutes since epoch UTC; none models NaT). -/
structure Rec where
  page_id : String
  seigo : String
  mistake_count : Option Int
  yatta : Option Nat
deriving DecidableEq, Repr

/-- The mutable session state of `WordQuizApp` that the claims are about:
`master_df`, `df` (the working queue), `question_mode` (enabled filter
mode names), the two today counters and the cursor. -/
structure AppState where
  master_df : List Rec
  df : List Rec
  question_mode : List String
  todays_total_answered : Int
  todays_correct_count : Int
  current_index : Nat
deriving DecidableEq, Repr

/-- Shift a UTC timestamp (minutes) to UTC+9 and take the calendar date
(day number): `(now_utc + timedelta(hours=9)).date()`. -/
def jstDate (t : Nat) : Nat := (t + 540) / 1440

/-- Embedding of `_load_todays_stats_from_notion` (src/notion.py lines
441-458). It scans `self.df` — the filtered working queue — converting
やった日 to a UTC datetime (`errors='coerce'`), shifting by 9 hours, and
counting rows on today's UTC+9 date with outcome 正 or 誤. -/
def load_todays_stats_from_notion (d : List Rec) (now : Nat) : Int × Int :=
  if d.isEmpty then (0, 0)
  else
    let today_jst := jstDate now
    let entries := d.filter (fun r =>
      (match r.yatta with
       | some t => jstDate t == today_jst
       | none => false) && (r.seigo == "正" || r.seigo == "誤"))
    ((entries.length : Int), ((entries.filter (fun r => r.seigo == "正")).length : Int))

/-- Per-row filter condition of `refilter_and_display_words`
(src/notion.py lines 152-162): the four mode masks OR-ed together. -/
def matchesMode (modes : List String) (r : Rec) : Bool :=
  (modes.contains "未" && (r.seigo == "" || r.seigo == "未")) ||
  (modes.contains "誤" && r.seigo == "誤") ||
  (modes.contains "正" && r.seigo == "正") ||
  (modes.contains "正(誤)" && (r.seigo == "正" && 0 < r.mistake_count.getD 0))

/-- The `pd.to_numeric(..., errors='coerce').fillna(0)` coercion applied
to the `mistake_count` column when mode 正(誤) is enabled. -/
def coerceMistake (r : Rec) : Rec :=
  { r with mistake_count := some (r.mistake_count.getD 0) }

/-- Row selection by a boolean mask, `source_df[final_condition]`. -/
def applySelect : List Rec → List Bool → List Rec
  | [], _ => []
  | _ :: _, [] => []
  | r :: rs, b :: bs => if b then r :: applySelect rs bs else applySelect rs bs

/-- The working-queue computation of `refilter_and_display_words`
(src/notion.py lines 147-167): empty master gives an empty queue; the
mistake column is coerced to numeric-with-0 only when 正(誤) is enabled;
rows are kept by the OR-ed mask, and an all-false mask yields
`pd.DataFrame([])`. -/
def refilter_df (master : List Rec) (modes : List String) : List Rec :=
  if master.isEmpty then []
  else
    let source := if modes.contains "正(誤)" then master.map coerceMistake else master
    let mask := source.map (matchesMode modes)
    if mask.any (fun b => b) then applySelect source mask else []

/-- Embedding of `refilter_and_display_words` (src/notion.py lines
146-175): rebuild `self.df` from `self.master_df`, recompute the today
counters from the new queue, and reset the cursor to 0. -/
def refilter_and_display_words (s : AppState) (now : Nat) : AppState :=
  let d := refilter_df s.master_df s.question_mode
  let ts := load_todays_stats_from_notion d now
  { s with df := d, todays_total_answered := ts.1, todays_correct_count := ts.2,
           current_index := 0 }

/-- The remote-update payload built by `record_and_next`: 間違えた回数
(present only on an incorrect answer), 正誤, and やった日 set to now. -/
structure NotionUpdate where
  kaisu : Option Int
  seigo : String
  yatta : Nat
deriving DecidableEq, Repr

/-- Embedding of `record_and_next` (src/notion.py lines 528-572). The
remote PATCH outcome is the parameter `remote_ok`; `now` is the value of
`datetime.now(timezone.utc)`. Returns the new state, the payload sent to
the remote service (none when the guard returns early), and whether the
completion notice (cycle complete) was shown. -/
def record_and_next (s : AppState) (correct : Bool) (remote_ok : Bool) (now : Nat) :
    AppState × Option NotionUpdate × Bool :=
  match s.df[s.current_index]? with
  | none => (s, none, false)
  | some word =>
    let page_id := word.page_id
    let total1 := s.todays_total_answered + 1
    let correct1 := if correct then s.todays_correct_count + 1 else s.todays_correct_count
    let new_status := if correct then "正" else "誤"
    let new_mistake := word.mistake_count.getD 0 + 1
    let master1 :=
      if correct then s.master_df
      else s.master_df.map (fun r =>
        if r.page_id == page_id then { r with mistake_count := some new_mistake } else r)
    let df1 := s.df.set s.current_index { word with seigo := new_status }
    let master2 := master1.map (fun r =>
      if r.page_id == page_id then { r with seigo := new_status } else r)
    let upd : NotionUpdate :=
      { kaisu := if correct then none else some new_mistake,
        seigo := new_status, yatta := now }
    if remote_ok then
      let df2 := df1.map (fun r =>
        if r.page_id == page_id then { r with yatta := some now } else r)
      let master3 := master2.map (fun r =>
        if r.page_id == page_id then { r with yatta := some now } else r)
      let s1 : AppState := { s with
        master_df := master3
        df := df2
        todays_total_answered := total1
        todays_correct_count := correct1 }
      if s1.current_index < s1.df.length - 1 then
        ({ s1 with current_index := s1.current_index + 1 }, some upd, false)
      else
        (refilter_and_display_words s1 now, some upd, true)
    else
      ({ s with
          master_df := master2
          df := df1
          todays_total_answered := total1 - 1
          todays_correct_count := if correct then correct1 - 1 else correct1 },
       some upd, false)

/-- Embedding of the `'done'` branch of `check_loading_queue`
(src/notion.py lines 285-304): on a fetch error one error dialog is shown
and `self.master_df` is replaced by an empty DataFrame; on success the
fetched table is installed; either way `refilter_and_display_words` runs.
Returns the new state and the number of error dialogs shown. -/
def check_loading_queue_done (s : AppState) (result : Except String (List Rec)) (now : Nat) :
    AppState × Nat :=
  match result with
  | .error _ => (refilter_and_display_words { s with master_df := [] } now, 1)
  | .ok d => (refilter_and_display_words { s with master_df := d } now, 0)

/-- One parsed response of the Notion query endpoint, as read by
`load_data_from_notion`: `results` (default []), the `has_more` flag and
the `next_cursor`. -/
structure PageResp where
  results : List JVal
  has_more : Bool
  next_cursor : Option String

/-- Embedding of the pagination loop of `load_data_from_notion`
(src/notion.py lines 310-332). `responses` is the stream of outcomes the
remote service produces for successive requests (`.error` models a
`RequestException`, including non-2xx via `raise_for_status`); `cursor`
is the `start_cursor` of the next request (none on the first). Returns
the cursor sent with each request actually issued, and either the
accumulated results of all pages or the single surfaced error. -/
def load_data_from_notion (cursor : Option String) :
    List (Except String PageResp) → List (Option String) × Except String (List JVal)
  | [] => ([], .ok [])
  | .error e :: _ => ([cursor], .error e)
  | .ok p :: rest =>
      if p.has_more then
        let next := load_data_from_notion p.next_cursor rest
        (cursor :: next.1,
         match next.2 with
         | .ok xs => .ok (p.results ++ xs)
         | .error e => .error e)
      else ([cursor], .ok p.results)

/-- Embedding of `extract_id_from_url`'s regex alphabet: `[a-f0-9]`. -/
def isHexLower (c : Char) : Bool :=
  (('a' ≤ c && c ≤ 'f') || ('0' ≤ c && c ≤ '9'))

/-- Whether a candidate window is a full 32-character lowercase-hex run. -/
def hexWindow (cs : List Char) : Bool := cs.length == 32 && cs.all isHexLower

/-- Leftmost 32-character lowercase-hex window of a character list:
`re.search(r'([a-f0-9]\x7b32\x7d)', s)`. -/
def findHex32 : List Char → Option (List Char)
  | [] => none
  | c :: rest =>
      if hexWindow ((c :: rest).take 32) then some ((c :: rest).take 32)
      else findHex32 rest

/-- Embedding of `extract_id_from_url` (src/notion.py lines 73-80): a
non-string input (none) yields ""; a string yields the first 32-character
hex substring when one exists, and the input itself otherwise. -/
def extract_id_from_url (u : Option String) : String :=
  match u with
  | none => ""
  | some s =>
      match findHex32 s.toList with
      | some m => String.mk m
      | none => s

example : extract_id_from_url (some "https://www.notion.so/myws/0123456789abcdef0123456789abcdef?v=1")
    = "0123456789abcdef0123456789abcdef" := rfl

example : extract_id_from_url (some "not a url") = "not a url" := rfl

/-- Modelled from the claim (refinement target): the "unanswered"
predicate — outcome empty or explicitly unanswered (未). -/
def specUnanswered (r : Rec) : Bool := r.seigo == "" || r.seigo == "未"

/-- Modelled from the claim (refinement target): the "incorrect"
predicate — outcome equals 誤. -/
def specIncorrect (r : Rec) : Bool := r.seigo == "誤"

/-- Modelled from the claim (refinement target): the "correct"
predicate — outcome equals 正. -/
def specCorrect (r : Rec) : Bool := r.seigo == "正"

/-- Modelled from the claim (refinement target): the
"correct-with-past-mistakes" predicate — outcome 正 and mistake counter
greater than 0, a missing counter counting as 0. -/
def specCorrectWithMistakes (r : Rec) : Bool :=
  r.seigo == "正" && 0 < r.mistake_count.getD 0

/-- Modelled from the claim (refinement target): the list of predicates
enabled by the selection. -/
def specEnabled (modes : List String) : List (Rec → Bool) :=
  (if modes.contains "未" then [specUnanswered] else []) ++
  (if modes.contains "誤" then [specIncorrect] else []) ++
  (if modes.contains "正" then [specCorrect] else []) ++
  (if modes.contains "正(誤)" then [specCorrectWithMistakes] else [])

/-- Modelled from the claim (refinement target): a record is included in
the Working Queue when it matches at least one enabled predicate. -/
def specFilterPred (modes : List String) (r : Rec) : Bool :=
  (specEnabled modes).any (fun p => p r)

/-- The mistake-column coercion actually applied to queue rows: the
source coerces the column only when mode 正(誤) is enabled. -/
def coerceIf (modes : List String) (r : Rec) : Rec :=
  if modes.contains "正(誤)" then coerceMistake r else r

theorem applySelect_map (p : Rec → Bool) (l : List Rec) :
    applySelect l (l.map p) = l.filter p := by
  induction l with
  | nil => rfl
  | cons r rs ih =>
      simp only [List.map_cons, applySelect, List.filter_cons]
      cases h : p r <;> simp [ih]

theorem matchesMode_coerce (modes : List String) (r : Rec) :
    matchesMode modes (coerceMistake r) = matchesMode modes r := by
  simp [matchesMode, coerceMistake]

theorem filter_of_map (f : Rec → Rec) (p : Rec → Bool) (l : List Rec) :
    (l.map f).filter p = (l.filter (fun r => p (f r))).map f := by
  induction l with
  | nil => rfl
  | cons r rs ih =>
      simp only [List.map_cons, List.filter_cons]
      cases h : p (f r) <;> simp [h, ih]

theorem specFilterPred_eq (modes : List String) (r : Rec) :
    specFilterPred modes r = matchesMode modes r := by
  simp only [specFilterPred, specEnabled, matchesMode]
  cases h1 : modes.contains "未" <;> cases h2 : modes.contains "誤" <;>
    cases h3 : modes.contains "正" <;> cases h4 : modes.contains "正(誤)" <;>
      simp [specUnanswered, specIncorrect, specCorrect, specCorrectWithMistakes,
        Bool.or_assoc]

theorem refilter_df_eq (master : List Rec) (modes : List String) :
    refilter_df master modes
      = (master.filter (matchesMode modes)).map (coerceIf modes) := by
  by_cases hm : master.isEmpty
  · rw [List.isEmpty_iff] at hm
    subst hm
    simp [refilter_df]
  · unfold refilter_df
    rw [if_neg hm]
    by_cases hk : modes.contains "正(誤)" = true
    · have hc : coerceIf modes = coerceMistake := funext fun r => by
        unfold coerceIf
        rw [if_pos hk]
      rw [hc, if_pos hk]
      by_cases ha : ((master.map coerceMistake).map (matchesMode modes)).any (fun b => b)
      · rw [if_pos ha, applySelect_map, filter_of_map]
        exact congrArg (List.map coerceMistake)
          (List.filter_congr (fun r _ => matchesMode_coerce modes r))
      · rw [if_neg ha]
        rw [Bool.not_eq_true, List.any_eq_false] at ha
        have hempty : master.filter (matchesMode modes) = [] := by
          rw [List.filter_eq_nil_iff]
          intro r hr
          have := ha (matchesMode modes (coerceMistake r))
            (by
              simp only [List.mem_map]
              exact ⟨coerceMistake r, ⟨r, hr, rfl⟩, rfl⟩)
          rw [matchesMode_coerce] at this
          simp [this]
        simp [hempty]
    · have hc : coerceIf modes = id := funext fun r => by
        unfold coerceIf
        rw [if_neg hk]
        rfl
      rw [hc, if_neg hk]
      by_cases ha : (master.map (matchesMode modes)).any (fun b => b)
      · rw [if_pos ha, applySelect_map]
        simp
      · rw [if_neg ha]
        rw [Bool.not_eq_true, List.any_eq_false] at ha
        have hempty : master.filter (matchesMode modes) = [] := by
          rw [List.filter_eq_nil_iff]
          intro r hr
          have := ha (matchesMode modes r)
            (by
              simp only [List.mem_map]
              exact ⟨r, hr, rfl⟩)
          simp [this]
        simp [hempty]

/-- C5: refilter includes a record in the Working Queue exactly when it
matches at least one enabled predicate (unanswered / incorrect / correct
/ correct-with-past-mistakes, a missing mistake counter counting as 0),
preserving the master table's relative order; the kept rows additionally
carry the numeric coercion of the mistake column that the source applies
when the 正(誤) mode is enabled. -/
theorem C5_refilter_spec (s : AppState) (now : Nat) :
    (refilter_and_display_words s now).df
      = (s.master_df.filter (specFilterPred s.question_mode)).map
          (coerceIf s.question_mode) := by
  have hp : specFilterPred s.question_mode = matchesMode s.question_mode :=
    funext (fun r => specFilterPred_eq s.question_mode r)
  rw [hp]
  simpa [refilter_and_display_words] using refilter_df_eq s.master_df s.question_mode

/-- C6: with zero enabled predicates the Working Queue is empty, not the
full table. -/
theorem C6_empty_selection (s : AppState) (now : Nat)
    (h1 : s.question_mode.contains "未" = false)
    (h2 : s.question_mode.contains "誤" = false)
    (h3 : s.question_mode.contains "正" = false)
    (h4 : s.question_mode.contains "正(誤)" = false) :
    (refilter_and_display_words s now).df = [] := by
  have hfalse : ∀ r, matchesMode s.question_mode r = false := by
    intro r
    unfold matchesMode
    rw [h1, h2, h3, h4]
    simp
  have : (refilter_and_display_words s now).df
      = (s.master_df.filter (matchesMode s.question_mode)).map
          (coerceIf s.question_mode) := by
    simpa [refilter_and_display_words] using refilter_df_eq s.master_df s.question_mode
  rw [this]
  have : s.master_df.filter (matchesMode s.question_mode) = [] := by
    rw [List.filter_eq_nil_iff]
    intro r _
    simp [hfalse r]
  simp [this]

def stC6w : AppState :=
  { master_df := [{ page_id := "a", seigo := "正", mistake_count := some 1, yatta := none }]
    df := []
    question_mode := ["x"]
    todays_total_answered := 0
    todays_correct_count := 0
    current_index := 0 }

/-- Witness for C6 at a concrete selection with no recognized mode. -/
theorem C6_empty_selection_witness : (refilter_and_display_words stC6w 0).df = [] :=
  C6_empty_selection stC6w 0 rfl rfl rfl rfl

/-- Modelled from the claim (refinement target): a record counts toward
today's statistics when its last-attempt timestamp, shifted to UTC+9,
falls on the current UTC+9 calendar date and its outcome is 正 or 誤. -/
def specTodayPred (now : Nat) (r : Rec) : Bool :=
  (r.yatta.map jstDate == some (jstDate now)) && (r.seigo == "正" || r.seigo == "誤")

/-- Modelled from the claim (refinement target): answered-today over a
table of records. -/
def specTodayAnswered (tbl : List Rec) (now : Nat) : Int :=
  ((tbl.filter (specTodayPred now)).length : Int)

/-- Modelled from the claim (refinement target): correct-today over a
table of records — among today's entries, those whose outcome is 正. -/
def specTodayCorrect (tbl : List Rec) (now : Nat) : Int :=
  (((tbl.filter (specTodayPred now)).filter (fun r => r.seigo == "正")).length : Int)

theorem specTodayPred_eq (now : Nat) (r : Rec) :
    specTodayPred now r
      = ((match r.yatta with
          | some t => jstDate t == jstDate now
          | none => false) && (r.seigo == "正" || r.seigo == "誤")) := by
  unfold specTodayPred
  cases r.yatta <;> simp

/-- C4 counterexample: the claim says today-stats initialization counts
over the Master Table, but the source scans `self.df`, the filtered
Working Queue. A master table holding one record answered correctly
today (timestamp 1410 = 23:30 UTC of day 0, i.e. 08:30 of day 1 in
UTC+9), filtered under the 誤-only mode, initializes answered-today to 0
although the master-table count the claim prescribes is 1. -/
theorem C4_counterexample :
    (refilter_and_display_words
        { master_df := [{ page_id := "p", seigo := "正", mistake_count := some 0, yatta := some 1410 }]
          df := []
          question_mode := ["誤"]
          todays_total_answered := 5
          todays_correct_count := 5
          current_index := 0 } 1410).todays_total_answered = 0 ∧
    specTodayAnswered
      [{ page_id := "p", seigo := "正", mistake_count := some 0, yatta := some 1410 }] 1410 = 1 :=
  ⟨rfl, rfl⟩

/-- C4 (amended): today-stats initialization counts exactly the records
of the WORKING QUEUE (not the master table) whose last-attempt
timestamp, shifted to UTC+9, falls on the current UTC+9 calendar date
and whose outcome is 正 or 誤, with correct-today counting the 正 subset;
a record timestamped 23:30 UTC (minute 1410 of day 0) falls on UTC+9
calendar day 1 although its UTC calendar day is 0. -/
theorem C4_amended :
    (∀ (d : List Rec) (now : Nat),
        load_todays_stats_from_notion d now
          = (specTodayAnswered d now, specTodayCorrect d now)) ∧
    jstDate 1410 = 1 ∧ 1410 / 1440 = 0 := by
  refine ⟨?_, rfl, rfl⟩
  intro d now
  unfold load_todays_stats_from_notion specTodayAnswered specTodayCorrect
  by_cases hd : d.isEmpty
  · rw [List.isEmpty_iff] at hd
    subst hd
    simp
  · rw [if_neg hd]
    have hp : d.filter (fun r =>
        (match r.yatta with
         | some t => jstDate t == jstDate now
         | none => false) && (r.seigo == "正" || r.seigo == "誤"))
        = d.filter (specTodayPred now) :=
      List.filter_congr (fun r _ => (specTodayPred_eq now r).symm)
    simp only [hp]

/-- C2 counterexample: the claim says a failed fetch leaves the
previously loaded Master Table unchanged, but the `'done'` error branch
of `check_loading_queue` replaces it with an empty DataFrame. -/
theorem C2_counterexample :
    (check_loading_queue_done
        { master_df := [{ page_id := "q", seigo := "正", mistake_count := none, yatta := none }]
          df := [{ page_id := "q", seigo := "正", mistake_count := none, yatta := none }]
          question_mode := ["正"]
          todays_total_answered := 0
          todays_correct_count := 0
          current_index := 0 } (.error "ConnectionError") 0).1.master_df = [] ∧
    ({ master_df := [{ page_id := "q", seigo := "正", mistake_count := none, yatta := none }]
       df := [{ page_id := "q", seigo := "正", mistake_count := none, yatta := none }]
       question_mode := ["正"]
       todays_total_answered := 0
       todays_correct_count := 0
       current_index := 0 } : AppState).master_df ≠ [] :=
  ⟨rfl, by decide⟩

/-- C3 counterexample: the extraction functions can raise. A status
property whose tagged payload is null (as the claim's quantification
explicitly includes) makes `get_status_from_property` evaluate
`None.get('name', '')`, raising AttributeError instead of returning the
documented default. -/
theorem C3_counterexample :
    get_status_from_property (JVal.obj [("status", JVal.null)])
      = Except.error "AttributeError" := rfl

theorem except_ok_bind {α β : Type} (a : α) (f : α → Except String β) :
    (Except.ok a : Except String α) >>= f = f a := rfl

/-- C3 (amended): each extraction function returns its documented
default for a falsy (None or empty) property object; get_text also
returns "" for an unrecognized or absent type tag, for a tagged payload
that is null, and for an empty rich-text list. However the contract is
not total: get_text raises KeyError when the type tag is present but the
payload key is absent, get_number returns a null payload as-is instead
of 0, and get_status raises AttributeError when the status payload is
null. -/
theorem C3_amended :
    (get_text_from_property JVal.null = Except.ok (JVal.str "")) ∧
    (get_number_from_property JVal.null = Except.ok (JVal.num 0)) ∧
    (get_status_from_property JVal.null = Except.ok (JVal.str "")) ∧
    (∀ fs, textKinds.all (fun k => !(pyDictGet fs "type" JVal.null).isStr k) = true →
        get_text_from_property (JVal.obj fs) = Except.ok (JVal.str "")) ∧
    (∀ k, k ∈ textKinds →
        get_text_from_property (JVal.obj [("type", JVal.str k), (k, JVal.null)])
          = Except.ok (JVal.str "")) ∧
    (get_text_from_property (JVal.obj [("type", JVal.str "rich_text"), ("rich_text", JVal.arr [])])
        = Except.ok (JVal.str "")) ∧
    (∀ fs, lookupJ fs "number" = none →
        get_number_from_property (JVal.obj fs) = Except.ok (JVal.num 0)) ∧
    (get_number_from_property (JVal.obj [("type", JVal.str "number"), ("number", JVal.null)])
        = Except.ok JVal.null) ∧
    (∀ fs, lookupJ fs "status" = none →
        get_status_from_property (JVal.obj fs) = Except.ok (JVal.str "")) ∧
    (get_text_from_property (JVal.obj [("type", JVal.str "rich_text")])
        = Except.error "KeyError") := by
  refine ⟨rfl, rfl, rfl, ?_, ?_, rfl, ?_, rfl, ?_, rfl⟩
  · intro fs h
    simp only [textKinds, List.all_cons, List.all_nil, Bool.and_true, Bool.and_eq_true,
      Bool.not_eq_true'] at h
    obtain ⟨h1, h2, h3, h4, h5⟩ := h
    cases fs with
    | nil => rfl
    | cons p rest =>
        simp [get_text_from_property, JVal.truthy, pyGet, except_ok_bind, h1, h2, h3, h4, h5]
  · intro k hk
    simp only [textKinds, List.mem_cons, List.not_mem_nil, or_false] at hk
    rcases hk with rfl | rfl | rfl | rfl | rfl <;> rfl
  · intro fs h
    cases fs with
    | nil => rfl
    | cons p rest =>
        simp [get_number_from_property, JVal.truthy, pyGet, pyDictGet, h]
  · intro fs h
    cases fs with
    | nil => rfl
    | cons p rest =>
        show (do
            let s ← pyGet (JVal.obj (p :: rest)) "status" (JVal.obj [])
            pyGet s "name" (JVal.str "")) = Except.ok (JVal.str "")
        have hst : pyGet (JVal.obj (p :: rest)) "status" (JVal.obj [])
            = Except.ok (JVal.obj []) := by
          show Except.ok ((lookupJ (p :: rest) "status").getD (JVal.obj []))
              = Except.ok (JVal.obj [])
          rw [h]
          rfl
        rw [hst]
        rfl

/-- Witness for C3 (amended) at a property object with an unrecognized
type tag. -/
theorem C3_amended_witness :
    get_text_from_property (JVal.obj [("foo", JVal.num 1)]) = Except.ok (JVal.str "") :=
  C3_amended.2.2.2.1 [("foo", JVal.num 1)] rfl

theorem map_update_update (m : List Rec) (pid : String) (f g : Rec → Rec)
    (hf : ∀ r, (f r).page_id = r.page_id) :
    (m.map (fun r => if r.page_id == pid then f r else r)).map
      (fun r => if r.page_id == pid then g r else r)
    = m.map (fun r => if r.page_id == pid then g (f r) else r) := by
  rw [List.map_map]
  have hcomp : ((fun r => if r.page_id == pid then g r else r) ∘
        (fun r => if r.page_id == pid then f r else r))
      = fun r => if r.page_id == pid then g (f r) else r := by
    funext r
    by_cases h : r.page_id = pid
    · simp [Function.comp, h, hf]
    · simp [Function.comp, h]
  rw [hcomp]

/-- C1 counterexample: with the remote update failing, the Master Table
row is not restored — answering 正 on a record whose outcome was 未
leaves the local outcome at 正 after the failed call. -/
theorem C1_counterexample :
    (record_and_next
        { master_df := [{ page_id := "p1", seigo := "未", mistake_count := some 2, yatta := none }]
          df := [{ page_id := "p1", seigo := "未", mistake_count := some 2, yatta := none }]
          question_mode := ["未"]
          todays_total_answered := 0
          todays_correct_count := 0
          current_index := 0 } true false 7).1.master_df
      = [{ page_id := "p1", seigo := "正", mistake_count := some 2, yatta := none }] ∧
    ({ page_id := "p1", seigo := "正", mistake_count := some 2, yatta := none } : Rec)
      ≠ { page_id := "p1", seigo := "未", mistake_count := some 2, yatta := none } :=
  ⟨rfl, by decide⟩

/-- C1 (amended): when the remote update in record_and_next fails, the
(answered-today, correct-today) counters and the cursor equal their
pre-call values and no timestamp is written, but the new outcome status
has already been applied to the Working Queue row and all matching
Master Table rows, and for an incorrect answer the Master Table rows'
mistake counter has been incremented; those writes are not rolled back. -/
theorem C1_amended (s : AppState) (correct : Bool) (now : Nat) (word : Rec)
    (h : s.df[s.current_index]? = some word) :
    (record_and_next s correct false now).1.todays_total_answered
        = s.todays_total_answered ∧
    (record_and_next s correct false now).1.todays_correct_count
        = s.todays_correct_count ∧
    (record_and_next s correct false now).1.current_index = s.current_index ∧
    (record_and_next s correct false now).1.df
        = s.df.set s.current_index
            { word with seigo := if correct then "正" else "誤" } ∧
    (record_and_next s correct false now).1.master_df
        = s.master_df.map (fun r =>
            if r.page_id == word.page_id then
              { r with seigo := if correct then "正" else "誤",
                       mistake_count := if correct then r.mistake_count
                         else some (word.mistake_count.getD 0 + 1) }
            else r) := by
  unfold record_and_next
  rw [h]
  cases correct with
  | true =>
      refine ⟨by simp, by simp, rfl, rfl, rfl⟩
  | false =>
      refine ⟨by simp, by simp, rfl, rfl, ?_⟩
      exact map_update_update s.master_df word.page_id
        (fun r => { r with mistake_count := some (word.mistake_count.getD 0 + 1) })
        (fun r => { r with seigo := "誤" })
        (fun _ => rfl)

def recC1w : Rec := { page_id := "w", seigo := "", mistake_count := none, yatta := some 3 }

def stC1w : AppState :=
  { master_df := [recC1w]
    df := [recC1w]
    question_mode := ["未"]
    todays_total_answered := 2
    todays_correct_count := 1
    current_index := 0 }

/-- Witness for C1 (amended) at a concrete failing incorrect answer. -/
theorem C1_amended_witness :
    (record_and_next stC1w false false 9).1.todays_total_answered
        = stC1w.todays_total_answered ∧
    (record_and_next stC1w false false 9).1.todays_correct_count
        = stC1w.todays_correct_count :=
  ⟨(C1_amended stC1w false 9 recC1w rfl).1, (C1_amended stC1w false 9 recC1w rfl).2.1⟩

/-- C7: apply_outcome computes the new mistake counter as current + 1
(missing counting as 0) for an incorrect answer and leaves it unchanged
for a correct one; the payload carries the counter only when incorrect,
and always the new outcome and the timestamp now; on remote success
every Master Table row of that record reflects the new outcome, counter
and timestamp, other rows being untouched. -/
theorem C7_apply_outcome (s : AppState) (correct : Bool) (now : Nat) (word : Rec)
    (h : s.df[s.current_index]? = some word) :
    (record_and_next s correct true now).2.1
      = some { kaisu := if correct then none else some (word.mistake_count.getD 0 + 1),
               seigo := if correct then "正" else "誤", yatta := now } ∧
    (record_and_next s correct true now).1.master_df
      = s.master_df.map (fun r =>
          if r.page_id == word.page_id then
            { r with seigo := if correct then "正" else "誤",
                     mistake_count := if correct then r.mistake_count
                        else some (word.mistake_count.getD 0 + 1),
                     yatta := some now }
          else r) := by
  unfold record_and_next
  rw [h]
  cases correct with
  | true =>
      have hmaster :
          ((s.master_df.map (fun r =>
              if r.page_id == word.page_id then { r with seigo := "正" } else r)).map
            (fun r => if r.page_id == word.page_id then { r with yatta := some now } else r))
          = s.master_df.map (fun r =>
              if r.page_id == word.page_id then
                { r with seigo := "正", yatta := some now } else r) :=
        map_update_update s.master_df word.page_id
          (fun r => { r with seigo := "正" })
          (fun r => { r with yatta := some now }) (fun _ => rfl)
      simp only [List.length_map, List.length_set]
      by_cases hk : s.current_index < s.df.length - 1
      · rw [if_pos hk]
        exact ⟨rfl, hmaster⟩
      · rw [if_neg hk]
        exact ⟨rfl, hmaster⟩
  | false =>
      have hmaster :
          (((s.master_df.map (fun r =>
              if r.page_id == word.page_id then
                { r with mistake_count := some (word.mistake_count.getD 0 + 1) } else r)).map
            (fun r => if r.page_id == word.page_id then { r with seigo := "誤" } else r)).map
            (fun r => if r.page_id == word.page_id then { r with yatta := some now } else r))
          = s.master_df.map (fun r =>
              if r.page_id == word.page_id then
                { r with seigo := "誤",
                         mistake_count := some (word.mistake_count.getD 0 + 1),
                         yatta := some now } else r) :=
        Eq.trans
          (congrArg (fun l => List.map (fun r =>
              if r.page_id == word.page_id then { r with yatta := some now } else r) l)
            (map_update_update s.master_df word.page_id
              (fun r => { r with mistake_count := some (word.mistake_count.getD 0 + 1) })
              (fun r => { r with seigo := "誤" }) (fun _ => rfl)))
          (map_update_update s.master_df word.page_id
            (fun r => { r with mistake_count := some (word.mistake_count.getD 0 + 1),
                               seigo := "誤" })
            (fun r => { r with yatta := some now }) (fun _ => rfl))
      simp only [List.length_map, List.length_set]
      by_cases hk : s.current_index < s.df.length - 1
      · rw [if_pos hk]
        exact ⟨rfl, hmaster⟩
      · rw [if_neg hk]
        exact ⟨rfl, hmaster⟩

def recC7w : Rec := { page_id := "x", seigo := "正", mistake_count := some 2, yatta := some 1 }

def stC7w : AppState :=
  { master_df := [recC7w]
    df := [recC7w]
    question_mode := ["正"]
    todays_total_answered := 0
    todays_correct_count := 0
    current_index := 0 }

/-- Witness for C7: an incorrect answer on a record with counter 2 sends
counter 3, outcome 誤 and timestamp now in the payload. -/
theorem C7_apply_outcome_witness :
    (record_and_next stC7w false true 11).2.1
      = some { kaisu := some 3, seigo := "誤", yatta := 11 } :=
  (C7_apply_outcome stC7w false 11 recC7w rfl).1

/-- C8: on remote success the cursor advances from i to i + 1 when
i + 1 < N, wraps to 0 from the last position signalling cycle-complete
exactly once, and every queue rebuild resets the cursor to 0. -/
theorem C8_cursor (s : AppState) (correct : Bool) (now : Nat) (word : Rec)
    (h : s.df[s.current_index]? = some word) :
    (s.current_index < s.df.length - 1 →
        (record_and_next s correct true now).1.current_index = s.current_index + 1 ∧
        (record_and_next s correct true now).2.2 = false) ∧
    (¬ s.current_index < s.df.length - 1 →
        (record_and_next s correct true now).1.current_index = 0 ∧
        (record_and_next s correct true now).2.2 = true) ∧
    ∀ (s2 : AppState) (now2 : Nat), (refilter_and_display_words s2 now2).current_index = 0 := by
  refine ⟨?_, ?_, fun s2 now2 => rfl⟩
  · intro hlt
    unfold record_and_next
    rw [h]
    simp only [List.length_map, List.length_set]
    rw [if_pos hlt]
    exact ⟨rfl, rfl⟩
  · intro hge
    unfold record_and_next
    rw [h]
    simp only [List.length_map, List.length_set]
    rw [if_neg hge]
    exact ⟨rfl, rfl⟩

def recC8a : Rec := { page_id := "a", seigo := "", mistake_count := none, yatta := none }

def recC8b : Rec := { page_id := "b", seigo := "", mistake_count := none, yatta := none }

def stC8w : AppState :=
  { master_df := [recC8a, recC8b]
    df := [recC8a, recC8b]
    question_mode := ["未"]
    todays_total_answered := 0
    todays_correct_count := 0
    current_index := 0 }

/-- Witness for C8: in a queue of length 2, advancing from position 0
moves to position 1 without a cycle-complete signal. -/
theorem C8_cursor_witness :
    (record_and_next stC8w true true 4).1.current_index = 1 ∧
    (record_and_next stC8w true true 4).2.2 = false :=
  (C8_cursor stC8w true 4 recC8a rfl).1 (by decide)

/-- C2 (amended): on a transport or non-success HTTP error of the fetch,
exactly one error is reported and no partial fetch results are installed,
but the previously loaded Master Table is NOT preserved: it is replaced
by an empty table, and the Working Queue becomes empty as well. -/
theorem C2_amended (s : AppState) (e : String) (now : Nat) :
    (check_loading_queue_done s (.error e) now).2 = 1 ∧
    (check_loading_queue_done s (.error e) now).1.master_df = [] ∧
    (check_loading_queue_done s (.error e) now).1.df = [] ∧
    (check_loading_queue_done s (.error e) now).1.question_mode = s.question_mode := by
  refine ⟨rfl, rfl, ?_, rfl⟩
  show refilter_df ([] : List Rec) s.question_mode = []
  rfl


theorem load_pages_ok_aux (ps : List PageResp) :
    ∀ (c : Option String) (lastp : PageResp) (rest : List (Except String PageResp)),
    (∀ p ∈ ps, p.has_more = true) → lastp.has_more = false →
    load_data_from_notion c (ps.map Except.ok ++ Except.ok lastp :: rest)
      = (c :: ps.map (fun p => p.next_cursor),
         Except.ok ((ps.map (fun p => p.results)).flatten ++ lastp.results)) := by
  induction ps with
  | nil =>
      intro c lastp rest _ hlast
      simp [load_data_from_notion, hlast]
  | cons p ps ih =>
      intro c lastp rest hmore hlast
      have hp : p.has_more = true := hmore p (List.mem_cons_self p ps)
      have hps : ∀ q ∈ ps, q.has_more = true :=
        fun q hq => hmore q (List.mem_cons_of_mem p hq)
      simp only [List.map_cons, List.cons_append, load_data_from_notion, hp, if_true]
      rw [List.append_eq, ih p.next_cursor lastp rest hps hlast]
      simp [List.append_assoc]

theorem load_pages_error_aux (ps : List PageResp) :
    ∀ (c : Option String) (e : String) (rest : List (Except String PageResp)),
    (∀ p ∈ ps, p.has_more = true) →
    load_data_from_notion c (ps.map Except.ok ++ Except.error e :: rest)
      = (c :: ps.map (fun p => p.next_cursor), Except.error e) := by
  induction ps with
  | nil =>
      intro c e rest _
      simp [load_data_from_notion]
  | cons p ps ih =>
      intro c e rest hmore
      have hp : p.has_more = true := hmore p (List.mem_cons_self p ps)
      have hps : ∀ q ∈ ps, q.has_more = true :=
        fun q hq => hmore q (List.mem_cons_of_mem p hq)
      simp only [List.map_cons, List.cons_append, load_data_from_notion, hp, if_true]
      rw [List.append_eq, ih p.next_cursor e rest hps]

/-- C9: the pagination fetcher accumulates the items of each page in
order, issues each follow-up request with the continuation cursor the
previous response returned (the first request with none) exactly while
the response signals more data, and terminates at the first response
without it, independently of any later responses; on the first failing
request it stops, surfaces that single error and exposes no partial
accumulator. -/
theorem C9_pagination :
    (∀ (ps : List PageResp) (lastp : PageResp) (rest : List (Except String PageResp)),
        (∀ p ∈ ps, p.has_more = true) → lastp.has_more = false →
        load_data_from_notion none (ps.map Except.ok ++ Except.ok lastp :: rest)
          = (none :: ps.map (fun p => p.next_cursor),
             Except.ok ((ps.map (fun p => p.results)).flatten ++ lastp.results))) ∧
    (∀ (ps : List PageResp) (e : String) (rest : List (Except String PageResp)),
        (∀ p ∈ ps, p.has_more = true) →
        load_data_from_notion none (ps.map Except.ok ++ Except.error e :: rest)
          = (none :: ps.map (fun p => p.next_cursor), Except.error e)) :=
  ⟨fun ps lastp rest h1 h2 => load_pages_ok_aux ps none lastp rest h1 h2,
   fun ps e rest h1 => load_pages_error_aux ps none e rest h1⟩

/-- Witness for C9: a two-page fetch whose second page ends the loop;
the second request carries the cursor returned by the first response. -/
theorem C9_pagination_witness :
    load_data_from_notion none
      [Except.ok { results := [JVal.str "w1"], has_more := true, next_cursor := some "c2" },
       Except.ok { results := [JVal.str "w2"], has_more := false, next_cursor := none }]
      = ([none, some "c2"], Except.ok [JVal.str "w1", JVal.str "w2"]) := by
  have hmain := C9_pagination.1
    [{ results := [JVal.str "w1"], has_more := true, next_cursor := some "c2" }]
    { results := [JVal.str "w2"], has_more := false, next_cursor := none } []
    (by intro p hp; simp only [List.mem_singleton] at hp; subst hp; rfl) rfl
  simpa using hmain

theorem findHex32_some (cs : List Char) :
    ∀ m, findHex32 cs = some m →
      ∃ i, m = (cs.drop i).take 32 ∧ hexWindow m = true ∧
        ∀ j, j < i → hexWindow ((cs.drop j).take 32) = false := by
  induction cs with
  | nil =>
      intro m h
      simp [findHex32] at h
  | cons c rest ih =>
      intro m h
      unfold findHex32 at h
      by_cases hw : hexWindow ((c :: rest).take 32) = true
      · rw [if_pos hw] at h
        obtain rfl : (c :: rest).take 32 = m := Option.some.inj h
        exact ⟨0, by simp, hw, fun j hj => absurd hj (Nat.not_lt_zero j)⟩
      · rw [if_neg hw] at h
        obtain ⟨i, hm, hwin, hmin⟩ := ih m h
        refine ⟨i + 1, by simpa [List.drop_succ_cons] using hm, hwin, ?_⟩
        intro j hj
        cases j with
        | zero =>
            rw [List.drop_zero]
            exact Bool.eq_false_iff.mpr hw
        | succ j =>
            simpa [List.drop_succ_cons] using hmin j (Nat.lt_of_succ_lt_succ hj)

theorem findHex32_none (cs : List Char) :
    (∀ j, hexWindow ((cs.drop j).take 32) = false) → findHex32 cs = none := by
  induction cs with
  | nil => intro _; rfl
  | cons c rest ih =>
      intro h
      unfold findHex32
      have h0 : hexWindow ((c :: rest).take 32) = false := by
        have h00 := h 0
        rwa [List.drop_zero] at h00
      rw [if_neg (by simp only [h0]; exact Bool.false_ne_true)]
      apply ih
      intro j
      simpa [List.drop_succ_cons] using h (j + 1)

theorem findHex32_total (cs : List Char) :
    findHex32 cs = none → ∀ j, hexWindow ((cs.drop j).take 32) = false := by
  induction cs with
  | nil =>
      intro _ j
      simp [hexWindow]
  | cons c rest ih =>
      intro h j
      unfold findHex32 at h
      by_cases hw : hexWindow ((c :: rest).take 32) = true
      · rw [if_pos hw] at h
        cases h
      · rw [if_neg hw] at h
        cases j with
        | zero =>
            rw [List.drop_zero]
            exact Bool.eq_false_iff.mpr hw
        | succ j => simpa [List.drop_succ_cons] using ih h j

/-- C10: database-identifier extraction maps a non-string input to "";
for a string containing a 32-character lowercase-hex substring it
returns the leftmost such substring (the result is a 32-character
all-hex window with no earlier window, and such a string always
produces a match); a string containing none is returned unchanged. -/
theorem C10_extract_id :
    extract_id_from_url none = "" ∧
    (∀ (s : String) (m : List Char), findHex32 s.toList = some m →
        extract_id_from_url (some s) = String.mk m ∧
        ∃ i, m = (s.toList.drop i).take 32 ∧ hexWindow m = true ∧
          ∀ j, j < i → hexWindow ((s.toList.drop j).take 32) = false) ∧
    (∀ (s : String) (i : Nat), hexWindow ((s.toList.drop i).take 32) = true →
        ∃ m, findHex32 s.toList = some m) ∧
    (∀ s : String, (∀ j, hexWindow ((s.toList.drop j).take 32) = false) →
        extract_id_from_url (some s) = s) := by
  refine ⟨rfl, ?_, ?_, ?_⟩
  · intro s m h
    refine ⟨?_, findHex32_some s.toList m h⟩
    show (match findHex32 s.toList with
      | some m => String.mk m
      | none => s) = String.mk m
    rw [h]
  · intro s i h
    cases hf : findHex32 s.toList with
    | none =>
        have := findHex32_total s.toList hf i
        rw [this] at h
        cases h
    | some m => exact ⟨m, rfl⟩
  · intro s h
    show (match findHex32 s.toList with
      | some m => String.mk m
      | none => s) = s
    rw [findHex32_none s.toList h]

/-- Witness for C10 at a concrete URL containing one 32-character hex
identifier. -/
theorem C10_extract_id_witness :
    extract_id_from_url (some "https://x.io/0123456789abcdef0123456789abcdef?v=2")
      = "0123456789abcdef0123456789abcdef" :=
  (C10_extract_id.2.1 "https://x.io/0123456789abcdef0123456789abcdef?v=2"
    ("0123456789abcdef0123456789abcdef".toList) (by decide)).1
